import Mathlib

/-!
Verification development for the dashboard repository.

The definitions below are a shallow embedding of the JavaScript source:
  - JSON values are modelled by the inductive `Json` (numbers as rationals);
  - `JSON.parse` is external to the repository, so every parse entry point
    takes the parse result as `Option Json` (`none` models a thrown
    `SyntaxError`, i.e. malformed JSON);
  - the module-level caches (`telemetryData`, `balanceData`,
    `openOrdersData`, `systemData`) become explicit state records that the
    embedded parse functions transform;
  - a JavaScript computation that can throw is embedded in `Except`, and a
    `try`/`catch` block discards the error branch;
  - each ingest function returns, next to the new state, a `Bool` that is
    `true` exactly when the message was dropped (an early `return` from a
    shape guard, or an exception reaching the `catch` block).
-/

namespace JsDash

/-- JSON values (`JSON.parse` output).  Numbers are modelled as rationals;
object fields keep their textual order. -/
inductive Json where
  | null
  | bool (b : Bool)
  | num (q : ℚ)
  | str (s : String)
  | arr (elems : List Json)
  | obj (fields : List (String × Json))

/-- JavaScript truthiness of a JSON value (`if (x)`). -/
def jsTruthy : Json → Bool
  | .null => false
  | .bool b => b
  | .num q => q != 0
  | .str s => s != ""
  | .arr _ => true
  | .obj _ => true

/-- `typeof x === 'object'` for a JSON value (true for objects, arrays and
`null`). -/
def isObjectLike : Json → Bool
  | .obj _ => true
  | .arr _ => true
  | .null => true
  | _ => false

/-- Property access `j[k]`: `none` models `undefined` (absent field, or any
access on a non-object primitive). -/
def getField : Json → String → Option Json
  | .obj fs, k => fs.lookup k
  | _, _ => none

/-- Destructuring with a default, `const { k = d } = j`: the default applies
only when the field is `undefined`, an explicit `null` is kept. -/
def fieldOr (j : Json) (k : String) (d : Json) : Json :=
  (getField j k).getD d

/-- Truthiness of a possibly-`undefined` value (`undefined` is falsy). -/
def jsTruthyO : Option Json → Bool
  | none => false
  | some j => jsTruthy j

/-- Strict equality `x === 's'` of a possibly-`undefined` value against a
string literal. -/
def strictEqStr (x : Option Json) (s : String) : Bool :=
  match x with
  | some (.str t) => t == s
  | _ => false

/-- JavaScript number-to-string conversion, simplified: integers print their
decimal digits, other rationals fall back to the `ℚ` representation. -/
def numToString (q : ℚ) : String :=
  if q.den = 1 then
    (if q.num < 0 then "-" else "") ++ q.num.natAbs.repr
  else toString q

mutual

/-- JavaScript string conversion as used by template literals. -/
def jsToString : Json → String
  | .null => "null"
  | .bool b => cond b "true" "false"
  | .num q => numToString q
  | .str s => s
  | .arr xs => jsArrJoin xs
  | .obj _ => "[object Object]"

/-- `Array.prototype.join(',')`: elements separated by commas, with `null`
elements rendered as the empty string. -/
def jsArrJoin : List Json → String
  | [] => ""
  | [x] => jsJoinItem x
  | x :: y :: xs => jsJoinItem x ++ "," ++ jsArrJoin (y :: xs)

/-- A single element inside an array join (`null` becomes empty). -/
def jsJoinItem : Json → String
  | .null => ""
  | .bool b => cond b "true" "false"
  | .num q => numToString q
  | .str s => s
  | .arr xs => jsArrJoin xs
  | .obj _ => "[object Object]"

end

/-- Minimal string escaping used by `JSON.stringify` (quotes and
backslashes). -/
def escapeJsonString (s : String) : String :=
  String.mk (s.data.foldr (fun c acc =>
    if c = '"' then '\\' :: '"' :: acc
    else if c = '\\' then '\\' :: '\\' :: acc
    else c :: acc) [])

mutual

/-- `JSON.stringify` on a JSON value. -/
def stringifyJson : Json → String
  | .null => "null"
  | .bool b => cond b "true" "false"
  | .num q => numToString q
  | .str s => "\"" ++ escapeJsonString s ++ "\""
  | .arr xs => "[" ++ stringifyArr xs ++ "]"
  | .obj fs => "\x7b" ++ stringifyFields fs ++ "\x7d"

/-- Comma-separated serialization of array elements. -/
def stringifyArr : List Json → String
  | [] => ""
  | [x] => stringifyJson x
  | x :: y :: xs => stringifyJson x ++ "," ++ stringifyArr (y :: xs)

/-- Comma-separated serialization of object fields. -/
def stringifyFields : List (String × Json) → String
  | [] => ""
  | [(k, v)] => "\"" ++ escapeJsonString k ++ "\":" ++ stringifyJson v
  | (k, v) :: f :: fs =>
      "\"" ++ escapeJsonString k ++ "\":" ++ stringifyJson v ++ "," ++ stringifyFields (f :: fs)

end

/-- Object spread `{...j}`: objects are shallow-copied, arrays and strings
spread their indexed elements, other primitives give an empty object. -/
def spreadObj : Json → Json
  | .obj fs => .obj fs
  | .arr xs => .obj (xs.enum.map (fun p => (p.1.repr, p.2)))
  | .str s => .obj (s.data.enum.map (fun p => (p.1.repr, Json.str (String.mk [p.2]))))
  | _ => .obj []

/-! ## Formatting utilities (`formatting.js`) -/

/-- `String.prototype.toLowerCase`, character by character. -/
def jsToLower (s : String) : String :=
  String.mk (s.data.map Char.toLower)

/-- `String.prototype.includes`. -/
def strIncludes (s pat : String) : Bool :=
  (List.range (s.length + 1)).any (fun i => pat.data.isPrefixOf (s.data.drop i))

/-- The metadata field names probed by `getMetricType`. -/
def unitFields : List String := ["unit", "metric_unit", "type_hint", "units"]

/-- The time-unit test applied to a lower-cased unit string. -/
def isTimeUnit (unit : String) : Bool :=
  strIncludes unit "second" || strIncludes unit "sec" || unit == "s" ||
  strIncludes unit "minute" || unit == "m" ||
  strIncludes unit "hour" || unit == "h" ||
  strIncludes unit "millisecond" || unit == "ms" ||
  strIncludes unit "microsecond" || unit == "μs" || unit == "us" ||
  strIncludes unit "nanosecond" || unit == "ns" ||
  strIncludes unit "time" || strIncludes unit "duration" ||
  strIncludes unit "latency" || strIncludes unit "delay"

/-- The memory-unit test applied to a lower-cased unit string. -/
def isMemoryUnit (unit : String) : Bool :=
  strIncludes unit "byte" || unit == "b" ||
  strIncludes unit "kilobyte" || unit == "kb" ||
  strIncludes unit "megabyte" || unit == "mb" ||
  strIncludes unit "gigabyte" || unit == "gb" ||
  strIncludes unit "terabyte" || unit == "tb" ||
  strIncludes unit "memory" || strIncludes unit "mem" ||
  strIncludes unit "size" || strIncludes unit "allocated" ||
  strIncludes unit "used" || strIncludes unit "buffer" ||
  strIncludes unit "cache"

/-- Name-substring patterns classifying a metric as a time value. -/
def timePatterns : List String :=
  ["time", "duration", "latency", "elapsed", "wait", "delay", "period", "interval", "seconds", "sec"]

/-- Name-substring patterns classifying a metric as a memory value. -/
def memoryPatterns : List String :=
  ["memory", "mem", "bytes", "size", "allocated", "used", "buffer", "cache"]

/-- The unit-field loop of `getMetricType`: probe each metadata field in
order; a truthy non-string field throws (`.toLowerCase` is not a function),
modelled by the `Except` error branch. -/
def classifyByUnitFields (metric : Json) : List String → Except Unit (Option String)
  | [] => .ok none
  | f :: fs =>
    match getField metric f with
    | some v =>
      if jsTruthy v then
        match v with
        | .str s =>
          let unit := jsToLower s
          if isTimeUnit unit then .ok (some "time")
          else if isMemoryUnit unit then .ok (some "memory")
          else classifyByUnitFields metric fs
        | _ => .error ()
      else classifyByUnitFields metric fs
    | none => classifyByUnitFields metric fs

/-- `getMetricType(metric, metricName)`: metadata unit hints first, then
name-substring heuristics; a truthy non-string name throws. -/
def getMetricType (metric : Json) (metricName : Json) : Except Unit String :=
  match classifyByUnitFields metric unitFields with
  | .error e => .error e
  | .ok (some t) => .ok t
  | .ok none =>
    if jsTruthy metricName then
      match metricName with
      | .str s =>
        let name := jsToLower s
        if timePatterns.any (fun pat => strIncludes name pat) then .ok "time"
        else if memoryPatterns.any (fun pat => strIncludes name pat) then .ok "memory"
        else .ok "number"
      | _ => .error ()
    else .ok "number"

/-- `toFixed(d)` for a nonnegative rational: round to `d` decimal places
(half away from zero) and print with exactly `d` digits after the point. -/
def toFixedQ (q : ℚ) (d : Nat) : String :=
  let m : ℚ := (10 : ℚ) ^ d
  let n : ℤ := ⌊q * m + 1/2⌋
  let intPart := n / (10 : ℤ) ^ d
  let fracPart := (n % (10 : ℤ) ^ d).natAbs
  if d = 0 then intPart.natAbs.repr
  else
    let fracDigits := fracPart.repr
    let padded := String.mk (List.replicate (d - fracDigits.length) '0') ++ fracDigits
    intPart.natAbs.repr ++ "." ++ padded

/-- `formatted.replace(/\.?0+$/, '')`: strip a trailing run of zeros, and
the decimal point if it directly precedes that run (working on the
character list). -/
def stripTrailingZeros (s : String) : String :=
  match s.data.getLast? with
  | some '0' =>
    let t := (s.data.reverse.dropWhile (fun c => c == '0')).reverse
    match t.getLast? with
    | some '.' => String.mk t.dropLast
    | _ => String.mk t
  | _ => s

/-- The unit table of `formatMemory`, smallest first. -/
def memUnits : List (String × ℚ) :=
  [("B", 1), ("KB", 1024), ("MB", 1024 * 1024),
   ("GB", 1024 * 1024 * 1024), ("TB", 1024 * 1024 * 1024 * 1024)]

/-- The descending unit search of `formatMemory`: the largest unit whose
factor does not exceed the byte count. -/
def pickMemUnit (absValue : ℚ) : Option (String × ℚ) :=
  memUnits.reverse.find? (fun u => u.2 ≤ absValue)

/-- Scaled-value formatting of `formatMemory`: three significant digits,
then trailing-zero stripping. -/
def fmtScaled (scaled : ℚ) : String :=
  let formatted :=
    if 100 ≤ scaled then toFixedQ scaled 0
    else if 10 ≤ scaled then toFixedQ scaled 1
    else toFixedQ scaled 2
  stripTrailingZeros formatted

/-- The body of `formatMemory` applied to a byte count: unit selection plus
the very-small-value fallback. -/
def memDisplay (absValue : ℚ) : String :=
  match pickMemUnit absValue with
  | some u => fmtScaled (absValue / u.2) ++ " " ++ u.1
  | none => toFixedQ absValue 0 ++ " B"

/-- `formatMemory(value)`: zero maps to `'0 B'`; otherwise the absolute
value is multiplied by 1024 (KB-to-bytes) before a display unit is chosen. -/
def formatMemory (value : ℚ) : String :=
  if value = 0 then "0 B"
  else
    let absValue := |value| * 1024
    (if value < 0 then "-" else "") ++ memDisplay absValue

/-! ## Telemetry ingest (`telemetry.js`, `parseTelemetryMessage`) -/

/-- A cached telemetry entry (`telemetryData[key]`).  `last_updated` is
`Option` because the destructured field may be `undefined`. -/
structure TEntry where
  name : Json
  labels : Json
  value : Json
  cached_rate : Json
  last_updated : Option Json
  metric_type : Json
  key : String

/-- The telemetry cache `telemetryData`, a keyed store. -/
abbrev TData := String → Option TEntry

/-- Shape dispatch of `parseTelemetryMessage`: a bare array is the metrics
list, an object carries it in a `metrics` array field; anything else is the
unrecognized-format branch (`none`). -/
def telemetryMetricsOf (data : Json) : Option (List Json) :=
  match data with
  | .arr l => some l
  | _ =>
    if jsTruthy data && isObjectLike data then
      match getField data "metrics" with
      | some (.arr l) => some l
      | _ => none
    else none

/-- Processing of one element of the metrics array.  The `Except` error
marks the one JavaScript throw site inside the loop: `getMetricType` on a
truthy non-string unit hint or name.  All guard failures are silent skips. -/
def processItem (st : TData) (item : Json) : Except Unit TData :=
  if !(jsTruthy item && isObjectLike item) then .ok st
  else
    match getField item "name", getField item "metric_type" with
    | some nv, some mt =>
      if !(jsTruthy nv && jsTruthy mt) then .ok st
      else
        let labels := (getField item "labels").getD (Json.obj [])
        let lastUpdated := getField item "last_updated"
        let cachedRate := (getField item "cached_rate").getD (Json.num 0)
        let type := getField mt "type"
        if !(strictEqStr type "gauge" || strictEqStr type "counter" ||
             strictEqStr type "histogram") then .ok st
        else
          let labelsStr := stringifyJson labels
          let key := jsToString nv ++ "|" ++ labelsStr
          let processedValue := (getField mt "value").getD Json.null
          match processedValue with
          | .num q =>
            match getMetricType mt nv with
            | .error e => .error e
            | .ok metricType =>
              let pv := if metricType = "memory" then Json.num (q * 1024) else Json.num q
              .ok (Function.update st key (some
                { name := nv, labels := labels, value := pv, cached_rate := cachedRate,
                  last_updated := lastUpdated, metric_type := mt, key := key }))
          | _ =>
            .ok (Function.update st key (some
              { name := nv, labels := labels, value := processedValue,
                cached_rate := cachedRate, last_updated := lastUpdated,
                metric_type := mt, key := key }))
    | _, _ => .ok st

/-- `metrics.forEach(item => ...)`: a throw aborts the remaining items but
keeps the updates already applied; the flag records whether the exception
reached the `catch` block. -/
def processItems (st : TData) : List Json → TData × Bool
  | [] => (st, false)
  | it :: rest =>
    match processItem st it with
    | .ok st' => processItems st' rest
    | .error _ => (st, true)

/-- `parseTelemetryMessage`: `none` is a `JSON.parse` throw (caught), an
unrecognized shape warns and returns, an empty metrics list keeps the cache,
and otherwise the items are merged.  The `Bool` is `true` when the message
was dropped as a fault. -/
def parseTelemetryMessage (m : Option Json) (st : TData) : TData × Bool :=
  match m with
  | none => (st, true)
  | some data =>
    match telemetryMetricsOf data with
    | none => (st, true)
    | some metrics =>
      if metrics.isEmpty then (st, false)
      else processItems st metrics

/-- The composite key an item would be stored under, when it passes every
guard up to the type check; `none` for skipped items. -/
def itemKey (item : Json) : Option String :=
  if !(jsTruthy item && isObjectLike item) then none
  else
    match getField item "name", getField item "metric_type" with
    | some nv, some mt =>
      if !(jsTruthy nv && jsTruthy mt) then none
      else
        let labels := (getField item "labels").getD (Json.obj [])
        let type := getField mt "type"
        if !(strictEqStr type "gauge" || strictEqStr type "counter" ||
             strictEqStr type "histogram") then none
        else some (jsToString nv ++ "|" ++ stringifyJson labels)
    | _, _ => none

/-- The set of cache keys a telemetry message can write: the keys of its
guard-passing metric items.  A message omits key `k` iff `k` is not in this
list. -/
def msgKeys (m : Option Json) : List String :=
  match m with
  | none => []
  | some data =>
    match telemetryMetricsOf data with
    | none => []
    | some metrics => metrics.filterMap itemKey

/-! ## Balance ingest (`balance.js`, `parseBalanceMessage`) -/

/-- A cached balance entry: `{...balance, last_updated}` — the shallow copy
of the balance object plus the message timestamp (possibly `undefined`). -/
structure BEntry where
  data : Json
  last_updated : Option Json

/-- The balance-channel state: the per-asset cache and the open-orders
array. -/
structure BState where
  balanceData : String → Option BEntry
  openOrdersData : List Json

/-- One step of the balances loop: skip falsy entries and entries without a
truthy `asset` field, upsert the rest by asset name. -/
def upsertBalance (bd : String → Option BEntry) (b : Json) (ts : Option Json) :
    String → Option BEntry :=
  if !(jsTruthy b) then bd
  else
    match getField b "asset" with
    | some a =>
      if jsTruthy a then Function.update bd (jsToString a) (some ⟨spreadObj b, ts⟩)
      else bd
    | none => bd

/-- `parseBalanceMessage`.  The order list is cleared first, then rebuilt
from the truthy elements of `open_orders`; a non-array `open_orders` (or
`balances`) throws at its `.forEach`, which the `catch` swallows — after the
clear has already happened.  The `Bool` is `true` when the message was
dropped as a fault. -/
def parseBalanceMessage (m : Option Json) (st : BState) : BState × Bool :=
  match m with
  | none => (st, true)
  | some data =>
    if !(jsTruthy data && isObjectLike data) then (st, true)
    else
      let oo := fieldOr data "open_orders" (Json.arr [])
      let bals := fieldOr data "balances" (Json.arr [])
      let ts := getField data "timestamp"
      let st1 : BState := { st with openOrdersData := [] }
      match oo with
      | .arr orders =>
        let st2 : BState :=
          { st1 with openOrdersData := (orders.filter (fun o => jsTruthy o)).map spreadObj }
        match bals with
        | .arr bl =>
          ({ st2 with balanceData := bl.foldl (fun bd b => upsertBalance bd b ts) st2.balanceData },
           false)
        | _ => (st2, true)
      | _ => (st1, true)

/-! ## System ingest (`system.js`, `parseSystemMessage`) -/

/-- A cached system entry. -/
structure SEntry where
  name : String
  value : Json
  last_updated : Option Json

/-- The system cache `systemData`. -/
abbrev SData := String → Option SEntry

/-- `Object.entries`: fields of an object, indexed elements of an array. -/
def entriesOf : Json → List (String × Json)
  | .obj fs => fs
  | .arr xs => xs.enum.map (fun p => (p.1.repr, p.2))
  | _ => []

/-- `parseSystemMessage`: upsert every top-level entry except the reserved
`type`/`timestamp` keys, storing arrays as-is and skipping non-null
objects. -/
def parseSystemMessage (m : Option Json) (st : SData) : SData × Bool :=
  match m with
  | none => (st, true)
  | some data =>
    if !(jsTruthy data && isObjectLike data) then (st, true)
    else
      let ts := getField data "timestamp"
      ((entriesOf data).foldl (fun s kv =>
        if kv.1 == "type" || kv.1 == "timestamp" then s
        else
          match kv.2 with
          | .arr _ => Function.update s kv.1 (some ⟨kv.1, kv.2, ts⟩)
          | .obj _ => s
          | _ => Function.update s kv.1 (some ⟨kv.1, kv.2, ts⟩)) st, false)

/-! ## Channel ingest dispatch (`websocket.js`, `ws.onmessage`) -/

/-- The cached-data channels plus the uncached log channel. -/
inductive Channel where
  | telemetry
  | balance
  | system
  | log

/-- The whole client-side cache state named by the spec. -/
structure DashState where
  telemetryData : TData
  balance : BState
  systemData : SData

/-- Per-channel ingest of one parsed message: dispatch to the channel's
parse function (the log channel writes no cache state). -/
def ingest (c : Channel) (m : Option Json) (st : DashState) : DashState × Bool :=
  match c with
  | .telemetry =>
    let (t, f) := parseTelemetryMessage m st.telemetryData
    ({ st with telemetryData := t }, f)
  | .balance =>
    let (b, f) := parseBalanceMessage m st.balance
    ({ st with balance := b }, f)
  | .system =>
    let (s, f) := parseSystemMessage m st.systemData
    ({ st with systemData := s }, f)
  | .log => (st, false)

/-- A message rejected before any state mutation: malformed JSON
(`JSON.parse` threw) or a shape refused by the channel's initial guard. -/
def guardRejected (c : Channel) (m : Option Json) : Bool :=
  match m with
  | none =>
    match c with
    | .log => false
    | _ => true
  | some data =>
    match c with
    | .telemetry => (telemetryMetricsOf data).isNone
    | .balance => !(jsTruthy data && isObjectLike data)
    | .system => !(jsTruthy data && isObjectLike data)
    | .log => false

/-! ## Fan-out with exception isolation (`websocket.js`, `notifyWidgets`)

For the error-isolation property the registry is fixed and a callback is an
effectful function: invoking it on a payload yields its observable effects
(a list of event tags) and possibly a thrown error.  Sequencing follows
JavaScript: an uncaught throw skips the rest of the computation. -/

/-- A widget callback: payload to observable effects plus optional throw. -/
abbrev CB := Json → List Nat × Option String

/-- Sequencing of two possibly-throwing computations: a throw in the first
skips the second. -/
def seqE (c1 : List Nat × Option String) (c2 : Unit → List Nat × Option String) :
    List Nat × Option String :=
  match c1 with
  | (evs, some e) => (evs, some e)
  | (evs, none) =>
    let r := c2 ()
    (evs ++ r.1, r.2)

/-- The `try { callback(data) } catch (error) { console.error(...) }` body:
effects are kept, the error is swallowed. -/
def tryCatch (c : List Nat × Option String) : List Nat × Option String :=
  (c.1, none)

/-- `notifyWidgets`: `forEach` over the subscribers, each call wrapped in
`try`/`catch`. -/
def notifyWidgets (subs : List CB) (payload : Json) : List Nat × Option String :=
  match subs with
  | [] => ([], none)
  | cb :: rest => seqE (tryCatch (cb payload)) (fun _ => notifyWidgets rest payload)

/-! ## Subscriber registry with live iteration (`websocket.js`,
`widgetSubscribers` / `subscribeToStream` / `unsubscribeFromStream`)

For the snapshot/idempotence properties callbacks are identified by
handles (`Nat`) and the per-channel `Set` is modelled by its ECMAScript
internal representation: an ordered list of slots where `Set.delete`
empties a slot and `Set.add` appends a fresh one.  `Set.forEach` walks the
slot indices, re-reading the length each step, so entries added during the
walk are visited and entries emptied before their visit are skipped. -/

/-- The internal data of one channel's `Set` of callbacks. -/
abbrev SetData := List (Option Nat)

/-- `Set.add`: no-op when present, else append. -/
def setAdd (s : SetData) (cb : Nat) : SetData :=
  if (some cb) ∈ s then s else s ++ [some cb]

/-- `Set.delete`: empty the slot holding the value. -/
def setDelete (s : SetData) (cb : Nat) : SetData :=
  s.map (fun x => if x = some cb then none else x)

/-- The `widgetSubscribers` object: one callback set per known channel. -/
structure WidgetSubscribers where
  telemetry : SetData
  balance : SetData
  system : SetData
  log : SetData

/-- What the property read `widgetSubscribers[streamName]` can find:
one of the four own channel `Set`s, a truthy non-`Set` value inherited
from `Object.prototype` (a method such as `toString`, or the `__proto__`
accessor's result), or `undefined`. -/
inductive ChannelLookup where
  | channelSet (s : SetData)
  | inherited
  | missing

/-- The property names every plain object inherits from
`Object.prototype`; reading them on `widgetSubscribers` yields a truthy
non-`Set` value. -/
def objectProtoProps : List String :=
  ["constructor", "hasOwnProperty", "isPrototypeOf", "propertyIsEnumerable",
   "toLocaleString", "toString", "valueOf", "__proto__",
   "__defineGetter__", "__defineSetter__", "__lookupGetter__", "__lookupSetter__"]

/-- `widgetSubscribers[streamName]`: own channel properties first, then the
prototype chain, else `undefined`. -/
def getChannelSet (w : WidgetSubscribers) (streamName : String) : ChannelLookup :=
  if streamName == "telemetry" then .channelSet w.telemetry
  else if streamName == "balance" then .channelSet w.balance
  else if streamName == "system" then .channelSet w.system
  else if streamName == "log" then .channelSet w.log
  else if objectProtoProps.contains streamName then .inherited
  else .missing

/-- Replace one channel's set (helper for the state update). -/
def setChannelSet (w : WidgetSubscribers) (streamName : String) (s : SetData) :
    WidgetSubscribers :=
  if streamName == "telemetry" then { w with telemetry := s }
  else if streamName == "balance" then { w with balance := s }
  else if streamName == "system" then { w with system := s }
  else if streamName == "log" then { w with log := s }
  else w

/-- `subscribeToStream(streamName, callback)`: the truthiness guard lets a
channel `Set` or an inherited `Object.prototype` value through; on the
latter, `.add` is not a function and a `TypeError` escapes to the caller
(the `Except` error); an `undefined` lookup is a silent no-op. -/
def subscribeToStream (streamName : String) (cb : Nat) (w : WidgetSubscribers) :
    Except Unit WidgetSubscribers :=
  match getChannelSet w streamName with
  | .channelSet s => .ok (setChannelSet w streamName (setAdd s cb))
  | .inherited => .error ()
  | .missing => .ok w

/-- `unsubscribeFromStream(streamName, callback)`: same guard shape as
`subscribeToStream`, with `.delete` throwing on an inherited value. -/
def unsubscribeFromStream (streamName : String) (cb : Nat) (w : WidgetSubscribers) :
    Except Unit WidgetSubscribers :=
  match getChannelSet w streamName with
  | .channelSet s => .ok (setChannelSet w streamName (setDelete s cb))
  | .inherited => .error ()
  | .missing => .ok w

/-- A callback's same-channel subscription side effects. -/
inductive SubAction where
  | sub (cb : Nat)
  | unsub (cb : Nat)

/-- Apply a callback's subscription actions to the channel set. -/
def runActions (acts : List SubAction) (s : SetData) : SetData :=
  acts.foldl (fun r a =>
    match a with
    | .sub n => setAdd r n
    | .unsub n => setDelete r n) s

/-- `Set.forEach` with possibly set-mutating callbacks: walk slot `i`,
invoke the occupant if the slot is live, and re-read the length each step.
`fuel` bounds the walk (a callback adding fresh entries every visit can
extend it without bound in JavaScript as well); with fuel at least the
final length the walk is exact. -/
def forEachLive (behave : Nat → List SubAction) : Nat → Nat → SetData → List Nat × SetData
  | 0, _, s => ([], s)
  | fuel + 1, i, s =>
    match s.get? i with
    | none => ([], s)
    | some none => forEachLive behave fuel (i + 1) s
    | some (some cb) =>
      let s' := runActions (behave cb) s
      let r := forEachLive behave fuel (i + 1) s'
      (cb :: r.1, r.2)

/-- One publish over a channel set: the list of callbacks invoked and the
final set. -/
def notifyLive (behave : Nat → List SubAction) (s : SetData) (fuel : Nat) :
    List Nat × SetData :=
  forEachLive behave fuel 0 s

/-! ## Canvas zoom (`canvas.js`, `Canvas.setScale` and its callers) -/

/-- The zoom-relevant part of the `Canvas` state. -/
structure CanvasState where
  scale : ℚ
  minScale : ℚ
  maxScale : ℚ

/-- The constructor's zoom state: scale 1.0, bounds 0.25 and 2.0. -/
def initCanvas : CanvasState :=
  { scale := 1, minScale := 1/4, maxScale := 2 }

/-- `setScale(newScale)`: stores its argument as-is (no clamping here). -/
def setScale (c : CanvasState) (newScale : ℚ) : CanvasState :=
  { c with scale := newScale }

/-- `handleKeyDown`, Ctrl/Cmd `+`: clamp `scale * 1.2` to the max bound. -/
def keyZoomIn (c : CanvasState) : CanvasState :=
  setScale c (min c.maxScale (c.scale * (6/5)))

/-- `handleKeyDown`, Ctrl/Cmd `-`: clamp `scale / 1.2` to the min bound. -/
def keyZoomOut (c : CanvasState) : CanvasState :=
  setScale c (max c.minScale (c.scale / (6/5)))

/-- `handleKeyDown`, Ctrl/Cmd `0`: reset to 100%. -/
def keyZoomReset (c : CanvasState) : CanvasState :=
  setScale c 1

/-- `handleTouchMove` pinch step: multiply by the touch-distance ratio and
clamp to both bounds. -/
def pinchZoom (c : CanvasState) (ratio : ℚ) : CanvasState :=
  setScale c (max c.minScale (min c.maxScale (c.scale * ratio)))

/-! ## Auto layout (`main.js`, `AutoLayout.calculateLayout`) -/

/-- Pixel size of one grid unit. -/
def GRID_SIZE : Nat := 20

/-- `this.margin` from the `AutoLayout` constructor (grid units). -/
def autoLayoutMargin : Nat := 1

/-- A widget's grid size. -/
structure WSize where
  width : Nat
  height : Nat

/-- A widget's grid position. -/
structure WPos where
  x : Nat
  y : Nat

/-- One iteration of the packing loop: row-wrap when the widget would
overflow the row width, page-skip when it would overflow the canvas height,
place, and advance the running state.  Returns the position together with
the next `(currentX, currentY, maxHeightInRow)`. -/
def layoutStep (canvasWidth canvasHeight : Nat) (w : WSize) (currentX currentY maxHeightInRow : Nat) :
    WPos × Nat × Nat × Nat :=
  let wraps := canvasWidth < currentX + w.width
  let cX1 := if wraps then 0 else currentX
  let cY1 := if wraps then currentY + maxHeightInRow + autoLayoutMargin else currentY
  let mH1 := if wraps then 0 else maxHeightInRow
  let cY2 :=
    if canvasHeight < cY1 + w.height then
      max (cY1 + w.height + autoLayoutMargin * 2) (cY1 + 4)
    else cY1
  (⟨cX1, cY2⟩, cX1 + w.width + autoLayoutMargin, cY2, max mH1 w.height)

/-- The packing loop of `calculateLayout` with its running state
(`currentX`, `currentY`, `maxHeightInRow`). -/
def layoutAux (canvasWidth canvasHeight : Nat) :
    List WSize → Nat → Nat → Nat → List WPos
  | [], _, _, _ => []
  | w :: rest, currentX, currentY, maxHeightInRow =>
    let st := layoutStep canvasWidth canvasHeight w currentX currentY maxHeightInRow
    st.1 :: layoutAux canvasWidth canvasHeight rest st.2.1 st.2.2.1 st.2.2.2

/-- `AutoLayout.calculateLayout(widgets)`: canvas dimensions in grid units,
then the row-packing loop from the origin. -/
def calculateLayout (clientWidth clientHeight : Nat) (widgets : List WSize) : List WPos :=
  layoutAux (clientWidth / GRID_SIZE) (clientHeight / GRID_SIZE) widgets 0 0 0

/-- A placed widget's grid rectangle. -/
structure GridRect where
  x : Nat
  y : Nat
  w : Nat
  h : Nat

/-- The half-open point set `[x, x+w) × [y, y+h)` of a grid rectangle. -/
def rectPoints (r : GridRect) : Set (Nat × Nat) :=
  { p | r.x ≤ p.1 ∧ p.1 < r.x + r.w ∧ r.y ≤ p.2 ∧ p.2 < r.y + r.h }

/-- Pair the packing-loop positions with the widget sizes. -/
def layoutRectsAux (canvasWidth canvasHeight : Nat) (ws : List WSize)
    (cX cY mH : Nat) : List GridRect :=
  List.zipWith (fun (p : WPos) (s : WSize) => ⟨p.x, p.y, s.width, s.height⟩)
    (layoutAux canvasWidth canvasHeight ws cX cY mH) ws

/-- The rectangles a `calculateLayout` call assigns to its widgets. -/
def layoutRects (clientWidth clientHeight : Nat) (ws : List WSize) : List GridRect :=
  List.zipWith (fun (p : WPos) (s : WSize) => ⟨p.x, p.y, s.width, s.height⟩)
    (calculateLayout clientWidth clientHeight ws) ws

/-- Axis separation of two grid rectangles (one lies entirely left of or
entirely above the other). -/
def sepRect (a b : GridRect) : Prop :=
  a.x + a.w ≤ b.x ∨ b.x + b.w ≤ a.x ∨ a.y + a.h ≤ b.y ∨ b.y + b.h ≤ a.y

/-! ## Log widget retention (`log-widget.js`, `LogStreamWidget`) -/

/-- The retention-relevant state of a `LogStreamWidget`. -/
structure LogWidget where
  maxLines : Nat
  logLines : List Json

/-- The constructor: `maxLines = 50`, empty buffer. -/
def newLogWidget : LogWidget :=
  { maxLines := 50, logLines := [] }

/-- `addLogEntry(entry)`: push, then trim to the most-recent `maxLines`
once the buffer exceeds `maxLines * 2`. -/
def addLogEntry (wst : LogWidget) (entry : Json) : LogWidget :=
  let pushed := wst.logLines ++ [entry]
  if wst.maxLines * 2 < pushed.length then
    { wst with logLines := pushed.drop (pushed.length - wst.maxLines) }
  else
    { wst with logLines := pushed }

/-- The lines `updateContent` renders: `logLines.slice(-maxLines)`. -/
def renderedLines (wst : LogWidget) : List Json :=
  wst.logLines.drop (wst.logLines.length - wst.maxLines)

/-! ## Concrete states and messages used by witnesses and counterexamples -/

/-- The telemetry entry of the spec's `cpu_temp` scenario, as stored. -/
def cpuTempEntry : TEntry :=
  { name := .str "cpu_temp", labels := .obj [], value := .num (85/2),
    cached_rate := .num 0, last_updated := some (.num 1000),
    metric_type := .obj [("type", .str "gauge"), ("value", .num (85/2))],
    key := "cpu_temp|\x7b\x7d" }

/-- A telemetry cache holding the `cpu_temp` entry. -/
def cpuTempCache : TData :=
  Function.update (fun _ => none) "cpu_temp|\x7b\x7d" (some cpuTempEntry)

/-- Later telemetry messages that omit `cpu_temp`: an empty metrics array,
malformed JSON, and a bare-array message about another metric. -/
def laterMsgs : List (Option Json) :=
  [some (Json.obj [("metrics", Json.arr [])]),
   none,
   some (Json.arr [Json.obj [("name", Json.str "other"),
     ("metric_type", Json.obj [("type", Json.str "counter"), ("value", Json.num 1)])]])]

/-- A dashboard state whose order list holds one order. -/
def oneOrderState : DashState :=
  { telemetryData := fun _ => none,
    balance := { balanceData := fun _ => none,
                 openOrdersData := [Json.obj [("symbol", Json.str "OLD")]] },
    systemData := fun _ => none }

/-- A balance message whose `open_orders` field is a number: valid JSON, but
`open_orders.forEach` throws after the order list was already cleared. -/
def badOrdersMsg : Option Json := some (Json.obj [("open_orders", Json.num 5)])

/-- Three callbacks where the middle one throws. -/
def throwingTrio : List CB :=
  [fun _ => ([0], none), fun _ => ([1], some "boom"), fun _ => ([2], none)]

/-- Behaviors where callback 0 unsubscribes callback 1 on its own channel. -/
def unsubBehave : Nat → List SubAction :=
  fun n => if n = 0 then [SubAction.unsub 1] else []

/-- A channel set holding callbacks 0 and 1, in that order. -/
def twoSubs : SetData := [some 0, some 1]

/-- A telemetry metric item whose name classifies it as memory-typed. -/
def memItem : Json :=
  .obj [("name", .str "memory_used"),
        ("metric_type", .obj [("type", .str "gauge"), ("value", .num 1)])]

/-- A `widgetSubscribers` state with callback 7 on the telemetry channel. -/
def oneSubState : WidgetSubscribers :=
  { telemetry := [some 7], balance := [], system := [], log := [] }

/-! # Theorems -/

/-! ## Shared helper lemmas -/

theorem addLogEntry_maxLines (w : LogWidget) (e : Json) :
    (addLogEntry w e).maxLines = w.maxLines := by
  unfold addLogEntry
  dsimp only
  split <;> rfl

theorem addLogEntry_suffix (w : LogWidget) (e : Json) :
    (addLogEntry w e).logLines <:+ w.logLines ++ [e] := by
  unfold addLogEntry
  dsimp only
  split
  · exact List.drop_suffix _ _
  · exact List.suffix_refl _

theorem addLogEntry_bounded (w : LogWidget) (e : Json) (hm : w.maxLines = 50)
    (hl : w.logLines.length ≤ 100) : (addLogEntry w e).logLines.length ≤ 100 := by
  unfold addLogEntry
  dsimp only
  split
  · rename_i hgt
    rw [List.length_drop]
    omega
  · rename_i hle
    rw [hm] at hle
    simp only [List.length_append, List.length_singleton] at hle ⊢
    omega

theorem foldLog_invariant (es : List Json) (w : LogWidget) (hm : w.maxLines = 50) :
    (es.foldl addLogEntry w).maxLines = 50 ∧
    (es.foldl addLogEntry w).logLines <:+ w.logLines ++ es ∧
    (w.logLines.length ≤ 100 → (es.foldl addLogEntry w).logLines.length ≤ 100) := by
  induction es generalizing w with
  | nil => exact ⟨hm, by simp, fun h => h⟩
  | cons e rest ih =>
    obtain ⟨h1, h2, h3⟩ := ih (addLogEntry w e) (by rw [addLogEntry_maxLines, hm])
    refine ⟨h1, ?_, fun hl => h3 (addLogEntry_bounded w e hm hl)⟩
    have hs : (addLogEntry w e).logLines ++ rest <:+ w.logLines ++ (e :: rest) := by
      obtain ⟨t, ht⟩ := addLogEntry_suffix w e
      exact ⟨t, by rw [← List.append_assoc, ht, List.append_assoc]; rfl⟩
    simpa using h2.trans hs

theorem notifyWidgets_flat (subs : List CB) (p : Json) :
    notifyWidgets subs p = ((subs.map (fun cb => (cb p).1)).flatten, none) := by
  induction subs with
  | nil => rfl
  | cons cb rest ih =>
    simp only [notifyWidgets, tryCatch, seqE, ih, List.map_cons, List.flatten_cons]

/-! ## C8: log retention is bounded -/

/-- Claim C8: over any sequence of `addLogEntry` calls starting from the
constructor state, the retained buffer never exceeds `2 * maxLines = 100`
entries and is always a suffix (the most-recent part) of the entries added;
the rendered view is at most the most-recent `maxLines = 50` of the buffer;
and a push that makes the buffer exceed `2 * maxLines` trims it to exactly
the most-recent `maxLines`. -/
theorem log_retention_bounded (es : List Json) :
    ((es.foldl addLogEntry newLogWidget).logLines.length ≤ 2 * 50) ∧
    ((es.foldl addLogEntry newLogWidget).logLines <:+ es) ∧
    ((renderedLines (es.foldl addLogEntry newLogWidget)).length ≤ 50) ∧
    (renderedLines (es.foldl addLogEntry newLogWidget) <:+
      (es.foldl addLogEntry newLogWidget).logLines) ∧
    (∀ (w : LogWidget) (e : Json), w.maxLines = 50 →
      2 * 50 < w.logLines.length + 1 → (addLogEntry w e).logLines.length = 50) := by
  obtain ⟨h1, h2, h3⟩ := foldLog_invariant es newLogWidget rfl
  have hlen := h3 (by simp [newLogWidget])
  refine ⟨by omega, by simpa using h2, ?_, List.drop_suffix _ _, ?_⟩
  · rw [renderedLines, List.length_drop]
    omega
  · intro w e hm hgt
    unfold addLogEntry
    dsimp only
    rw [if_pos (by rw [hm]; simpa using hgt)]
    rw [List.length_drop, hm]
    simp only [List.length_append, List.length_cons, List.length_nil]
    omega

/-- Witness for C8's trimming conjunct at a concrete over-full buffer. -/
theorem log_retention_bounded_witness :
    (addLogEntry { maxLines := 50, logLines := List.replicate 100 Json.null } Json.null).logLines.length = 50 :=
  (log_retention_bounded []).2.2.2.2
    { maxLines := 50, logLines := List.replicate 100 Json.null } Json.null rfl
    (by simp)

/-! ## C6: zoom scale bounds -/

/-- Counterexample to claim C6 as stated: `setScale` stores its argument
without clamping, so `setScale(3)` leaves a stored scale of 3, outside
`[0.25, 2.0]`. -/
theorem setScale_unclamped_counterexample :
    (setScale initCanvas 3).scale = 3 ∧ ¬ ((setScale initCanvas 3).scale ≤ 2) := by
  constructor
  · rfl
  · norm_num [setScale, initCanvas]

/-- Claim C6 (amended): `setScale` itself stores its argument unclamped;
the zoom entry points — keyboard zoom in/out/reset and the pinch gesture —
clamp the requested scale before calling `setScale`, so from any in-bounds
scale the stored scale stays in `[0.25, 2.0]`, and a pinch whose target
scale falls outside the interval stores the nearest bound. -/
theorem zoom_handlers_stay_in_bounds (c : CanvasState)
    (hmin : c.minScale = 1/4) (hmax : c.maxScale = 2)
    (hlo : 1/4 ≤ c.scale) (hhi : c.scale ≤ 2) :
    (1/4 ≤ (keyZoomIn c).scale ∧ (keyZoomIn c).scale ≤ 2) ∧
    (1/4 ≤ (keyZoomOut c).scale ∧ (keyZoomOut c).scale ≤ 2) ∧
    (1/4 ≤ (keyZoomReset c).scale ∧ (keyZoomReset c).scale ≤ 2) ∧
    (∀ ratio : ℚ,
      (1/4 ≤ (pinchZoom c ratio).scale ∧ (pinchZoom c ratio).scale ≤ 2) ∧
      (c.scale * ratio < 1/4 → (pinchZoom c ratio).scale = 1/4) ∧
      (2 < c.scale * ratio → (pinchZoom c ratio).scale = 2)) := by
  simp only [keyZoomIn, keyZoomOut, keyZoomReset, pinchZoom, setScale, hmin, hmax]
  refine ⟨⟨le_min (by norm_num) (by linarith), min_le_left _ _⟩,
    ⟨le_max_left _ _, max_le (by norm_num) ?_⟩,
    ⟨by norm_num, by norm_num⟩, fun ratio => ⟨⟨le_max_left _ _,
      max_le (by norm_num) (min_le_left _ _)⟩, ?_, ?_⟩⟩
  · rw [div_le_iff₀ (by norm_num : (0:ℚ) < 6/5)]
    linarith
  · intro hlt
    rw [min_eq_right (le_of_lt (lt_trans hlt (by norm_num)))]
    exact max_eq_left (le_of_lt hlt)
  · intro hgt
    rw [min_eq_left (le_of_lt hgt)]
    exact max_eq_right (by norm_num)

/-- Witness for C6's amended theorem: at the constructor state, keyboard
zoom-in stays in bounds and a pinch targeting scale 100 stores the max. -/
theorem zoom_handlers_stay_in_bounds_witness :
    1/4 ≤ (keyZoomIn initCanvas).scale ∧ (pinchZoom initCanvas 100).scale = 2 :=
  ⟨(zoom_handlers_stay_in_bounds initCanvas rfl rfl (by norm_num [initCanvas])
      (by norm_num [initCanvas])).1.1,
   ((zoom_handlers_stay_in_bounds initCanvas rfl rfl (by norm_num [initCanvas])
      (by norm_num [initCanvas])).2.2.2 100).2.2 (by norm_num [initCanvas])⟩

/-! ## C3: fan-out isolates callback failures -/

/-- Claim C3: when subscriber `k` throws during a publish, every subscriber
— including those after `k` — is still invoked with the same payload (the
trace is the concatenation of every callback's effects at that payload),
and no exception escapes `notifyWidgets`. -/
theorem notify_isolates_failures (subs : List CB) (p : Json) (k : Nat)
    (hk : k < subs.length) (hthrows : ((subs.get ⟨k, hk⟩) p).2.isSome) :
    notifyWidgets subs p = ((subs.map (fun cb => (cb p).1)).flatten, none) :=
  notifyWidgets_flat subs p

/-- Witness for C3: a three-callback list whose middle callback throws; the
publish still runs all three and returns no error. -/
theorem notify_isolates_failures_witness :
    notifyWidgets throwingTrio Json.null =
      ((throwingTrio.map (fun cb => (cb Json.null).1)).flatten, none) :=
  notify_isolates_failures throwingTrio Json.null 1 (by decide) rfl

/-! ## C2: orders replaced wholesale -/

/-- Counterexample to claim C2 as stated: a message whose `open_orders`
array is `[null]` yields an empty `openOrdersData`, not `[null]` — falsy
elements are dropped by the `if (order)` guard, so the result does not
always equal the message's `open_orders` array exactly. -/
theorem orders_not_exact_counterexample :
    (parseBalanceMessage (some (Json.obj [("open_orders", Json.arr [Json.null])]))
      { balanceData := fun _ => none,
        openOrdersData := [Json.obj [("symbol", Json.str "OLD")]] }).1.openOrdersData
      ≠ [Json.null] := by
  intro h
  have hred : (parseBalanceMessage (some (Json.obj [("open_orders", Json.arr [Json.null])]))
      { balanceData := fun _ => none,
        openOrdersData := [Json.obj [("symbol", Json.str "OLD")]] }).1.openOrdersData
      = ([] : List Json) := rfl
  rw [hred] at h
  exact List.noConfusion h

/-- Claim C2 (amended): for every balance message that parses to a truthy
object whose (defaulted) `open_orders` field is an array, the order list
after the call equals that array restricted to its truthy elements, each
shallow-copied — independent of the previous order list, so nothing is
carried over from the previous message. -/
theorem orders_replaced_wholesale (st : BState) (data : Json) (l : List Json)
    (hobj : (jsTruthy data && isObjectLike data) = true)
    (hoo : fieldOr data "open_orders" (Json.arr []) = Json.arr l) :
    (parseBalanceMessage (some data) st).1.openOrdersData =
      (l.filter (fun o => jsTruthy o)).map spreadObj := by
  unfold parseBalanceMessage
  simp only [hobj, Bool.not_true, Bool.false_eq_true, if_false, hoo]
  split <;> rfl

/-- Witness for C2's amended theorem: a two-element order array with one
`null` replaces a nonempty previous order list by the copied truthy
element. -/
theorem orders_replaced_wholesale_witness :
    (parseBalanceMessage
      (some (Json.obj [("open_orders",
        Json.arr [Json.obj [("symbol", Json.str "X")], Json.null])]))
      { balanceData := fun _ => none,
        openOrdersData := [Json.obj [("symbol", Json.str "OLD")]] }).1.openOrdersData =
      (([Json.obj [("symbol", Json.str "X")], Json.null].filter
        (fun o => jsTruthy o)).map spreadObj) :=
  orders_replaced_wholesale _ _ _ rfl rfl

/-! ## C5: decode faults and cache state -/

/-- Counterexample to claim C5 as stated: the balance message
`{"open_orders": 5}` is valid JSON with an unexpected shape; its
`open_orders.forEach` throws, the `catch` drops the message (fault flag
set), yet the order list was already cleared — the cache state is not left
as it was. -/
theorem decode_fault_mutates_counterexample :
    (ingest .balance badOrdersMsg oneOrderState).2 = true ∧
    (ingest .balance badOrdersMsg oneOrderState).1 ≠ oneOrderState := by
  refine ⟨rfl, fun h => ?_⟩
  have hred : (ingest .balance badOrdersMsg oneOrderState).1.balance.openOrdersData
      = ([] : List Json) := rfl
  rw [h] at hred
  have : oneOrderState.balance.openOrdersData = [Json.obj [("symbol", Json.str "OLD")]] := rfl
  rw [this] at hred
  exact List.noConfusion hred

/-- Claim C5 (amended): every message rejected before processing starts —
malformed JSON (a `JSON.parse` throw) or a shape refused by the channel's
initial guard — is dropped with all cache state exactly as before, on every
channel.  (A fault thrown after the guards, such as a non-array
`open_orders`, is caught and drops the message, but updates already applied
— in particular the cleared order list — remain.) -/
theorem guard_rejected_no_state_change (c : Channel) (m : Option Json) (st : DashState)
    (h : guardRejected c m = true) : (ingest c m st).1 = st := by
  cases c with
  | telemetry =>
    cases m with
    | none => rfl
    | some data =>
      simp only [guardRejected, Option.isNone_iff_eq_none] at h
      simp only [ingest, parseTelemetryMessage, h]
  | balance =>
    cases m with
    | none => rfl
    | some data =>
      simp only [guardRejected] at h
      simp only [ingest, parseBalanceMessage, h, Bool.not_false, if_true]
  | system =>
    cases m with
    | none => rfl
    | some data =>
      simp only [guardRejected] at h
      simp only [ingest, parseSystemMessage, h, Bool.not_false, if_true]
  | log => rfl

/-- Witness for C5's amended theorem: a bare-number telemetry message is
shape-rejected and leaves the state untouched. -/
theorem guard_rejected_no_state_change_witness :
    guardRejected .telemetry (some (Json.num 3)) = true ∧
    (ingest .telemetry (some (Json.num 3)) oneOrderState).1 = oneOrderState :=
  ⟨rfl, guard_rejected_no_state_change .telemetry (some (Json.num 3)) oneOrderState rfl⟩

/-! ## C1: telemetry cache is last-known-good -/

theorem processItem_spec (st : TData) (it : Json) :
    (itemKey it = none ∧ processItem st it = .ok st) ∨
    (∃ key, itemKey it = some key ∧
      (processItem st it = .error () ∨
       ∃ e, processItem st it = .ok (Function.update st key (some e)))) := by
  unfold processItem itemKey
  dsimp only
  split
  · exact Or.inl ⟨rfl, rfl⟩
  · split
    · split
      · exact Or.inl ⟨rfl, rfl⟩
      · split
        · exact Or.inl ⟨rfl, rfl⟩
        · refine Or.inr ⟨_, rfl, ?_⟩
          split
          · split
            · exact Or.inl rfl
            · exact Or.inr ⟨_, rfl⟩
          · exact Or.inr ⟨_, rfl⟩
    · exact Or.inl ⟨rfl, rfl⟩

theorem processItem_preserves (st : TData) (it : Json) (k : String)
    (hk : itemKey it ≠ some k) (st' : TData) (h : processItem st it = .ok st') :
    st' k = st k := by
  rcases processItem_spec st it with ⟨_, hok⟩ | ⟨key, hkey, herr | ⟨e, hok⟩⟩
  · rw [hok] at h
    cases h
    rfl
  · rw [herr] at h
    cases h
  · rw [hok] at h
    cases h
    have hne : k ≠ key := fun hkk => hk (hkk ▸ hkey)
    exact Function.update_noteq hne _ _

theorem processItems_preserves (its : List Json) (st : TData) (k : String)
    (hk : ∀ it ∈ its, itemKey it ≠ some k) :
    (processItems st its).1 k = st k := by
  induction its generalizing st with
  | nil => rfl
  | cons it rest ih =>
    simp only [processItems]
    cases hpi : processItem st it with
    | ok st' =>
      exact (ih st' (fun x hx => hk x (List.mem_cons_of_mem _ hx))).trans
        (processItem_preserves st it k (hk it (List.mem_cons_self it rest)) st' hpi)
    | error e => rfl

theorem parseTelemetry_preserves (m : Option Json) (st : TData) (k : String)
    (hk : k ∉ msgKeys m) : (parseTelemetryMessage m st).1 k = st k := by
  cases m with
  | none => rfl
  | some data =>
    simp only [parseTelemetryMessage]
    cases htm : telemetryMetricsOf data with
    | none => rfl
    | some metrics =>
      rcases Bool.eq_false_or_eq_true metrics.isEmpty with he | he <;>
        simp only [he, if_true, if_false]
      apply processItems_preserves
      intro it hit hsome
      apply hk
      simp only [msgKeys, htm]
      exact List.mem_filterMap.mpr ⟨it, hit, hsome⟩

/-- Claim C1: for every sequence of telemetry messages, a key stored with a
non-null value is still present with its last stored value after any later
messages that omit that key (including empty metrics arrays and malformed
messages). -/
theorem telemetry_last_known_good (msgs : List (Option Json)) (st : TData)
    (k : String) (e : TEntry) (h1 : st k = some e) (h2 : e.value ≠ Json.null)
    (h3 : ∀ m ∈ msgs, k ∉ msgKeys m) :
    (msgs.foldl (fun s m => (parseTelemetryMessage m s).1) st) k = some e := by
  induction msgs generalizing st with
  | nil => exact h1
  | cons m rest ih =>
    simp only [List.foldl_cons]
    exact ih _ ((parseTelemetry_preserves m st k (h3 m (List.mem_cons_self m rest))).trans h1)
      (fun x hx => h3 x (List.mem_cons_of_mem _ hx))

/-- Witness for C1: the spec's `cpu_temp` scenario — after an empty-metrics
message, a malformed message, and a message about another metric, the
cached entry is unchanged. -/
theorem telemetry_last_known_good_witness :
    (laterMsgs.foldl (fun s m => (parseTelemetryMessage m s).1) cpuTempCache)
      "cpu_temp|\x7b\x7d" = some cpuTempEntry :=
  telemetry_last_known_good laterMsgs cpuTempCache "cpu_temp|\x7b\x7d" cpuTempEntry rfl
    (fun h => nomatch h) (by decide)

/-! ## C7: auto layout is overlap-free -/

theorem sepRect_disjoint {a b : GridRect} (h : sepRect a b) :
    Disjoint (rectPoints a) (rectPoints b) := by
  rw [Set.disjoint_left]
  intro p hpa hpb
  simp only [rectPoints, Set.mem_setOf_eq] at hpa hpb
  rcases h with h | h | h | h <;> omega

theorem layoutStep_facts (cw ch : Nat) (w : WSize) (cX cY mH : Nat) :
    ((layoutStep cw ch w cX cY mH).1.x + w.width < (layoutStep cw ch w cX cY mH).2.1) ∧
    ((layoutStep cw ch w cX cY mH).1.y = (layoutStep cw ch w cX cY mH).2.2.1) ∧
    (w.height ≤ (layoutStep cw ch w cX cY mH).2.2.2) ∧
    ((cX ≤ (layoutStep cw ch w cX cY mH).1.x ∧ cY ≤ (layoutStep cw ch w cX cY mH).1.y) ∨
      cY + mH < (layoutStep cw ch w cX cY mH).1.y) ∧
    ((cX ≤ (layoutStep cw ch w cX cY mH).2.1 ∧ cY ≤ (layoutStep cw ch w cX cY mH).2.2.1 ∧
        mH ≤ (layoutStep cw ch w cX cY mH).2.2.2) ∨
      cY + mH < (layoutStep cw ch w cX cY mH).2.2.1) := by
  unfold layoutStep autoLayoutMargin
  dsimp only
  split_ifs <;> omega

theorem layoutRectsAux_cons (cw ch : Nat) (w : WSize) (rest : List WSize) (cX cY mH : Nat) :
    layoutRectsAux cw ch (w :: rest) cX cY mH =
      (⟨(layoutStep cw ch w cX cY mH).1.x, (layoutStep cw ch w cX cY mH).1.y,
        w.width, w.height⟩ : GridRect) ::
      layoutRectsAux cw ch rest (layoutStep cw ch w cX cY mH).2.1
        (layoutStep cw ch w cX cY mH).2.2.1 (layoutStep cw ch w cX cY mH).2.2.2 := rfl

theorem layoutRectsAux_lower (cw ch : Nat) (ws : List WSize) :
    ∀ (cX cY mH : Nat) (r : GridRect), r ∈ layoutRectsAux cw ch ws cX cY mH →
      (cX ≤ r.x ∧ cY ≤ r.y) ∨ cY + mH < r.y := by
  induction ws with
  | nil =>
    intro cX cY mH r hr
    exact absurd hr (by simp [layoutRectsAux, layoutAux])
  | cons w rest ih =>
    intro cX cY mH r hr
    rw [layoutRectsAux_cons] at hr
    obtain ⟨f1, f2, f3, f4, f5⟩ := layoutStep_facts cw ch w cX cY mH
    rcases List.mem_cons.mp hr with hr | hr
    · subst hr
      dsimp only
      omega
    · have hq := ih _ _ _ r hr
      omega

theorem layoutRectsAux_pairwise (cw ch : Nat) (ws : List WSize) :
    ∀ (cX cY mH : Nat), (layoutRectsAux cw ch ws cX cY mH).Pairwise sepRect := by
  induction ws with
  | nil =>
    intro cX cY mH
    simp [layoutRectsAux, layoutAux]
  | cons w rest ih =>
    intro cX cY mH
    rw [layoutRectsAux_cons]
    refine List.Pairwise.cons (fun r hr => ?_) (ih _ _ _)
    obtain ⟨f1, f2, f3, f4, f5⟩ := layoutStep_facts cw ch w cX cY mH
    have hq := layoutRectsAux_lower cw ch rest _ _ _ r hr
    unfold sepRect
    dsimp only
    omega

/-- Claim C7: the grid rectangles assigned by one `calculateLayout` call
are pairwise disjoint as half-open point sets `[x, x+w) × [y, y+h)` — for
every widget list and every canvas size, including degenerate ones. -/
theorem autolayout_no_overlap (clientWidth clientHeight : Nat) (ws : List WSize) :
    (layoutRects clientWidth clientHeight ws).Pairwise
      (fun a b => Disjoint (rectPoints a) (rectPoints b)) := by
  have h := layoutRectsAux_pairwise (clientWidth / GRID_SIZE) (clientHeight / GRID_SIZE) ws 0 0 0
  exact h.imp sepRect_disjoint

/-! ## C4: live iteration of the subscriber set -/

theorem forEachLive_pure (behave : Nat → List SubAction) (s : SetData)
    (h : ∀ cb, some cb ∈ s → behave cb = []) :
    ∀ (fuel i : Nat), s.length ≤ i + fuel →
      forEachLive behave fuel i s = ((s.drop i).filterMap id, s) := by
  intro fuel
  induction fuel with
  | zero =>
    intro i hlen
    rw [List.drop_eq_nil_of_le (by omega)]
    rfl
  | succ fuel ih =>
    intro i hlen
    have hcases := Nat.lt_or_ge i s.length
    rcases hcases with hlt | hge
    · have hdrop := List.drop_eq_get_cons (l := s) hlt
      cases hx : s.get ⟨i, hlt⟩ with
      | none =>
        have hgi : s.get? i = some none := by rw [List.get?_eq_get hlt, hx]
        simp only [forEachLive, hgi]
        rw [ih (i + 1) (by omega), hdrop, hx]
        simp [List.filterMap_cons]
      | some cb =>
        have hgi : s.get? i = some (some cb) := by rw [List.get?_eq_get hlt, hx]
        have hmem : (some cb) ∈ s := by
          rw [← hx]
          exact s.get_mem i hlt
        simp only [forEachLive, hgi, h cb hmem]
        have hact : runActions [] s = s := rfl
        rw [hact, ih (i + 1) (by omega), hdrop, hx]
        simp [List.filterMap_cons]
    · have hgi : s.get? i = none := List.get?_eq_none.mpr hge
      simp only [forEachLive, hgi]
      rw [List.drop_eq_nil_of_le hge]
      rfl

/-- Counterexample to claim C4 as stated: with callbacks 0 and 1 subscribed
and callback 0 unsubscribing callback 1 during the publish, callback 1 —
subscribed when the publish began — is never invoked.  `Set.forEach`
iterates the live set, not a snapshot. -/
theorem publish_not_snapshot_counterexample :
    some 1 ∈ twoSubs ∧ 1 ∉ (notifyLive unsubBehave twoSubs 10).1 := by decide

/-- Claim C4 (amended): `notifyWidgets` iterates the live `Set`, not a
snapshot — a callback unsubscribed by an earlier callback before being
reached is not invoked (the counterexample).  When none of the subscribed
callbacks changes the same channel's subscriptions during the publish, the
callbacks invoked are exactly those subscribed when the publish began —
every occupied slot visited once, in order — and the set is left
unchanged. -/
theorem publish_live_iteration (s : SetData) (behave : Nat → List SubAction) (fuel : Nat)
    (hpure : ∀ cb, some cb ∈ s → behave cb = []) (hfuel : s.length ≤ fuel) :
    notifyLive behave s fuel = (s.filterMap id, s) := by
  unfold notifyLive
  rw [forEachLive_pure behave s hpure fuel 0 (by omega), List.drop_zero]

/-- Witness for C4's amended theorem: three slots, one empty, no mutation —
the publish visits exactly the occupied slots in order. -/
theorem publish_live_iteration_witness :
    notifyLive (fun _ => []) [some 4, none, some 2] 5 = ([4, 2], [some 4, none, some 2]) :=
  publish_live_iteration [some 4, none, some 2] (fun _ => []) 5 (fun _ _ => rfl) (by decide)

/-! ## C10: subscription algebra -/

theorem setAdd_idem (s : SetData) (cb : Nat) : setAdd (setAdd s cb) cb = setAdd s cb := by
  unfold setAdd
  by_cases h : (some cb) ∈ s
  · simp [h]
  · rw [if_neg h, if_pos (by simp)]

theorem setDelete_not_mem (s : SetData) (cb : Nat) : some cb ∉ setDelete s cb := by
  unfold setDelete
  intro hmem
  obtain ⟨x, _, hfx⟩ := List.mem_map.mp hmem
  by_cases hxx : x = some cb
  · rw [if_pos hxx] at hfx
    exact Option.noConfusion hfx
  · rw [if_neg hxx] at hfx
    exact hxx hfx

theorem setAdd_count (s : SetData) (cb : Nat) (h : s.count (some cb) ≤ 1) :
    (setAdd s cb).count (some cb) = 1 := by
  unfold setAdd
  by_cases hm : (some cb) ∈ s
  · rw [if_pos hm]
    have hpos : 0 < s.count (some cb) := List.count_pos_iff.mpr hm
    omega
  · rw [if_neg hm, List.count_append, List.count_eq_zero.mpr hm]
    simp

theorem count_filterMap_id (s : SetData) (cb : Nat) :
    (s.filterMap id).count cb = s.count (some cb) := by
  induction s with
  | nil => rfl
  | cons x rest ih =>
    cases x with
    | none => simpa [List.filterMap_cons, List.count_cons] using ih
    | some a => simp [List.filterMap_cons, List.count_cons, ih]

theorem setChannelSet_set (w : WidgetSubscribers) (streamName : String) (s t : SetData) :
    setChannelSet (setChannelSet w streamName s) streamName t =
      setChannelSet w streamName t := by
  unfold setChannelSet
  split_ifs <;> rfl

theorem getChannelSet_set (w : WidgetSubscribers) (streamName : String) (s s₀ : SetData)
    (h : getChannelSet w streamName = .channelSet s₀) :
    getChannelSet (setChannelSet w streamName s) streamName = .channelSet s := by
  unfold getChannelSet at h ⊢
  unfold setChannelSet
  split_ifs at h ⊢ <;> first | rfl | exact ChannelLookup.noConfusion h

theorem subscribe_channel (w : WidgetSubscribers) (streamName : String) (cb : Nat)
    (s₀ : SetData) (h : getChannelSet w streamName = .channelSet s₀) :
    subscribeToStream streamName cb w = .ok (setChannelSet w streamName (setAdd s₀ cb)) := by
  unfold subscribeToStream
  rw [h]

theorem unsubscribe_channel (w : WidgetSubscribers) (streamName : String) (cb : Nat)
    (s₀ : SetData) (h : getChannelSet w streamName = .channelSet s₀) :
    unsubscribeFromStream streamName cb w =
      .ok (setChannelSet w streamName (setDelete s₀ cb)) := by
  unfold unsubscribeFromStream
  rw [h]

/-- Counterexample to claim C10 as stated: subscribing or unsubscribing on
the unknown channel name `"toString"` is not a no-op — the truthiness guard
passes via the inherited `Object.prototype.toString`, and the subsequent
`.add` / `.delete` call throws a `TypeError` to the caller instead of
returning normally. -/
theorem unknown_channel_throws_counterexample :
    subscribeToStream "toString" 7 oneSubState = .error () ∧
    unsubscribeFromStream "toString" 7 oneSubState = .error () := ⟨rfl, rfl⟩

/-- Claim C10 (amended): per (channel, callback) subscription is idempotent
— on every channel name, subscribing any number of times equals subscribing
once; after a subscribe, a mutation-free publish on a channel set that held
the callback at most once invokes it exactly once; a single unsubscribe
removes the callback entirely.  Subscribe/unsubscribe on a name that is
neither a channel nor an `Object.prototype` property is a silent no-op; on
an inherited `Object.prototype` property name (`toString`, `constructor`,
`__proto__`, ...) the truthy lookup passes the guard and the
`.add`/`.delete` call throws a `TypeError` to the caller. -/
theorem subscription_idempotent (w : WidgetSubscribers) (streamName : String) (cb : Nat) :
    ((subscribeToStream streamName cb w).bind (subscribeToStream streamName cb) =
      subscribeToStream streamName cb w) ∧
    (∀ n : Nat, (fun e => e.bind (subscribeToStream streamName cb))^[n]
      (subscribeToStream streamName cb w) = subscribeToStream streamName cb w) ∧
    (∀ w' s, unsubscribeFromStream streamName cb w = .ok w' →
      getChannelSet w' streamName = .channelSet s → some cb ∉ s) ∧
    (getChannelSet w streamName = .missing →
      subscribeToStream streamName cb w = .ok w ∧
      unsubscribeFromStream streamName cb w = .ok w) ∧
    (getChannelSet w streamName = .inherited →
      subscribeToStream streamName cb w = .error () ∧
      unsubscribeFromStream streamName cb w = .error ()) ∧
    (∀ s₀ w' s₁ fuel, getChannelSet w streamName = .channelSet s₀ →
      s₀.count (some cb) ≤ 1 → subscribeToStream streamName cb w = .ok w' →
      getChannelSet w' streamName = .channelSet s₁ →
      s₁.length ≤ fuel → (notifyLive (fun _ => []) s₁ fuel).1.count cb = 1) := by
  have hbind : ∀ v : WidgetSubscribers,
      (subscribeToStream streamName cb v).bind (subscribeToStream streamName cb) =
        subscribeToStream streamName cb v := by
    intro v
    cases h : getChannelSet v streamName with
    | channelSet s₀ =>
      rw [subscribe_channel v streamName cb s₀ h]
      simp only [Except.bind]
      rw [subscribe_channel _ streamName cb _ (getChannelSet_set v streamName (setAdd s₀ cb) s₀ h),
        setAdd_idem, setChannelSet_set]
    | inherited =>
      have hsub : subscribeToStream streamName cb v = .error () := by
        unfold subscribeToStream
        rw [h]
      rw [hsub]
      rfl
    | missing =>
      have hsub : subscribeToStream streamName cb v = .ok v := by
        unfold subscribeToStream
        rw [h]
      rw [hsub]
      exact hsub
  refine ⟨hbind w, ?_, ?_, ?_, ?_, ?_⟩
  · intro n
    induction n with
    | zero => rfl
    | succ n ihn =>
      rw [Function.iterate_succ_apply', ihn]
      exact hbind w
  · intro w' s hok hget
    cases h : getChannelSet w streamName with
    | channelSet s₀ =>
      rw [unsubscribe_channel w streamName cb s₀ h] at hok
      injection hok with hw'
      subst hw'
      rw [getChannelSet_set w streamName (setDelete s₀ cb) s₀ h] at hget
      injection hget with hs
      rw [← hs]
      exact setDelete_not_mem s₀ cb
    | inherited =>
      have : unsubscribeFromStream streamName cb w = .error () := by
        unfold unsubscribeFromStream
        rw [h]
      rw [this] at hok
      exact Except.noConfusion hok
    | missing =>
      have : unsubscribeFromStream streamName cb w = .ok w := by
        unfold unsubscribeFromStream
        rw [h]
      rw [this] at hok
      injection hok with hw'
      subst hw'
      rw [h] at hget
      exact ChannelLookup.noConfusion hget
  · intro h
    constructor
    · unfold subscribeToStream
      rw [h]
    · unfold unsubscribeFromStream
      rw [h]
  · intro h
    constructor
    · unfold subscribeToStream
      rw [h]
    · unfold unsubscribeFromStream
      rw [h]
  · intro s₀ w' s₁ fuel h hcount hok hget hfuel
    rw [subscribe_channel w streamName cb s₀ h] at hok
    injection hok with hw'
    subst hw'
    rw [getChannelSet_set w streamName (setAdd s₀ cb) s₀ h] at hget
    injection hget with hs
    have htrace : notifyLive (fun _ => []) s₁ fuel = (s₁.filterMap id, s₁) := by
      unfold notifyLive
      rw [forEachLive_pure (fun _ => []) s₁ (fun _ _ => rfl) fuel 0 (by omega), List.drop_zero]
    rw [htrace, count_filterMap_id, ← hs]
    exact setAdd_count s₀ cb hcount

/-- Witness for C10's amended theorem: at concrete registries, bind-chained
double subscription collapses; a publish after subscribing invokes callback
7 exactly once; `"bogus"` is a silent no-op; and `"toString"` throws. -/
theorem subscription_idempotent_witness :
    ((subscribeToStream "telemetry" 7 oneSubState).bind (subscribeToStream "telemetry" 7) =
      subscribeToStream "telemetry" 7 oneSubState) ∧
    (notifyLive (fun _ => []) [some 7] 5).1.count 7 = 1 ∧
    (subscribeToStream "bogus" 7 oneSubState = .ok oneSubState ∧
      unsubscribeFromStream "bogus" 7 oneSubState = .ok oneSubState) ∧
    (subscribeToStream "valueOf" 7 oneSubState = .error () ∧
      unsubscribeFromStream "valueOf" 7 oneSubState = .error ()) :=
  ⟨(subscription_idempotent oneSubState "telemetry" 7).1,
   (subscription_idempotent oneSubState "telemetry" 7).2.2.2.2.2 [some 7] oneSubState [some 7] 5
     rfl (by decide) rfl rfl (by decide),
   (subscription_idempotent oneSubState "bogus" 7).2.2.2.1 rfl,
   (subscription_idempotent oneSubState "valueOf" 7).2.2.2.2.1 rfl⟩

/-! ## C9: memory values are scaled by 1024 twice -/

theorem toFixedQ_one_two : toFixedQ 1 2 = "1.00" := by
  simp only [toFixedQ]
  rw [show (1:ℚ) * 10 ^ 2 + 1 / 2 = 201 / 2 by norm_num]
  rw [show ⌊(201:ℚ) / 2⌋ = 100 by rw [Int.floor_eq_iff] <;> norm_num]
  decide

theorem fmtScaled_one : fmtScaled 1 = "1" := by
  unfold fmtScaled
  rw [if_neg (by norm_num : ¬ (100:ℚ) ≤ 1), if_neg (by norm_num : ¬ (10:ℚ) ≤ 1),
    toFixedQ_one_two]
  decide

theorem pickMemUnit_kb : pickMemUnit 1024 = some ("KB", 1024) := by
  have h4 : ¬ ((1024 * 1024 * 1024 * 1024 : ℚ) ≤ 1024) := by norm_num
  have h3 : ¬ ((1024 * 1024 * 1024 : ℚ) ≤ 1024) := by norm_num
  have h2 : ¬ ((1024 * 1024 : ℚ) ≤ 1024) := by norm_num
  have h1 : ((1024 : ℚ) ≤ 1024) := le_refl _
  unfold pickMemUnit memUnits
  rw [show ([("B", (1:ℚ)), ("KB", 1024), ("MB", 1024 * 1024), ("GB", 1024 * 1024 * 1024),
      ("TB", 1024 * 1024 * 1024 * 1024)] : List (String × ℚ)).reverse =
    [("TB", 1024 * 1024 * 1024 * 1024), ("GB", 1024 * 1024 * 1024), ("MB", 1024 * 1024),
      ("KB", 1024), ("B", 1)] from rfl]
  simp only [List.find?, decide_eq_false h4, decide_eq_false h3, decide_eq_false h2,
    decide_eq_true h1]

theorem pickMemUnit_mb : pickMemUnit 1048576 = some ("MB", 1024 * 1024) := by
  have h4 : ¬ ((1024 * 1024 * 1024 * 1024 : ℚ) ≤ 1048576) := by norm_num
  have h3 : ¬ ((1024 * 1024 * 1024 : ℚ) ≤ 1048576) := by norm_num
  have h2 : ((1024 * 1024 : ℚ) ≤ 1048576) := by norm_num
  unfold pickMemUnit memUnits
  rw [show ([("B", (1:ℚ)), ("KB", 1024), ("MB", 1024 * 1024), ("GB", 1024 * 1024 * 1024),
      ("TB", 1024 * 1024 * 1024 * 1024)] : List (String × ℚ)).reverse =
    [("TB", 1024 * 1024 * 1024 * 1024), ("GB", 1024 * 1024 * 1024), ("MB", 1024 * 1024),
      ("KB", 1024), ("B", 1)] from rfl]
  simp only [List.find?, decide_eq_false h4, decide_eq_false h3, decide_eq_true h2]

theorem formatMemory_one : formatMemory 1 = "1 KB" := by
  unfold formatMemory
  rw [if_neg (by norm_num : ¬ (1:ℚ) = 0)]
  simp only
  rw [if_neg (by norm_num : ¬ (1:ℚ) < 0),
    show |(1:ℚ)| * 1024 = 1024 by norm_num]
  unfold memDisplay
  rw [pickMemUnit_kb]
  simp only
  rw [show (1024:ℚ) / 1024 = 1 by norm_num, fmtScaled_one]
  rfl

theorem formatMemory_kb : formatMemory 1024 = "1 MB" := by
  unfold formatMemory
  rw [if_neg (by norm_num : ¬ (1024:ℚ) = 0)]
  simp only
  rw [if_neg (by norm_num : ¬ (1024:ℚ) < 0),
    show |(1024:ℚ)| * 1024 = 1048576 by norm_num]
  unfold memDisplay
  rw [pickMemUnit_mb]
  simp only
  rw [show (1048576:ℚ) / (1024 * 1024) = 1 by norm_num, fmtScaled_one]
  rfl

/-- Claim C9: `formatMemory` interprets its argument as kibibytes — for
nonzero `v` it multiplies `|v|` by 1024 before choosing a display unit, so
`formatMemory 1` renders `"1 KB"`; telemetry ingest already multiplies
memory-classified numeric values by 1024 when storing them, so a stored
value fed to `formatMemory` is scaled by 1024 twice — a metric reported as
1 (KB) displays as `"1 MB"`. -/
theorem memory_double_scaling :
    (formatMemory 1 = "1 KB") ∧
    (∀ v : ℚ, v ≠ 0 →
      formatMemory v = (if v < 0 then "-" else "") ++ memDisplay (|v| * 1024)) ∧
    (∀ (st : TData) (item nv mt : Json) (q : ℚ),
      getField item "name" = some nv → getField item "metric_type" = some mt →
      (jsTruthy item && isObjectLike item) = true → (jsTruthy nv && jsTruthy mt) = true →
      strictEqStr (getField mt "type") "gauge" = true →
      getField mt "value" = some (Json.num q) →
      getMetricType mt nv = .ok "memory" →
      ∃ st', processItem st item = .ok st' ∧
        ∃ e, st' (jsToString nv ++ "|" ++
            stringifyJson ((getField item "labels").getD (Json.obj []))) = some e ∧
          e.value = Json.num (q * 1024)) ∧
    (formatMemory 1024 = "1 MB") := by
  refine ⟨formatMemory_one, ?_, ?_, formatMemory_kb⟩
  · intro v hv
    rw [formatMemory, if_neg hv]
  · intro st item nv mt q hn hm hitem hnvmt hgauge hval hmem
    unfold processItem
    rw [hitem]
    simp only [Bool.not_true, Bool.false_eq_true, if_false, hn, hm, hnvmt, hgauge,
      Bool.true_or, hval, Option.getD_some, hmem]
    exact ⟨_, rfl, _, Function.update_same _ _ _, rfl⟩

/-- Witness for C9: a gauge named `memory_used` with value 1 is stored as
1024, and `formatMemory` at a negative argument exposes the KB-to-bytes
multiplication before unit selection. -/
theorem memory_double_scaling_witness :
    (∃ st', processItem (fun _ => none) memItem = .ok st' ∧
      ∃ e, st' (jsToString (Json.str "memory_used") ++ "|" ++
          stringifyJson ((getField memItem "labels").getD (Json.obj []))) = some e ∧
        e.value = Json.num (1 * 1024)) ∧
    formatMemory (-3) = (if (-3 : ℚ) < 0 then "-" else "") ++ memDisplay (|(-3 : ℚ)| * 1024) :=
  ⟨memory_double_scaling.2.2.1 (fun _ => none) memItem (Json.str "memory_used")
      (Json.obj [("type", Json.str "gauge"), ("value", Json.num 1)]) 1
      rfl rfl rfl rfl rfl rfl rfl,
   memory_double_scaling.2.1 (-3) (by norm_num)⟩

end JsDash
